import Mathlib

/-!
Verification of the go-calculator expression evaluator.

The Go sources (package `calculator`: the operator registry of
`operators.go` and the tokenizer / validator / postfix converter /
postfix evaluator of `calculator.go`) are shallowly embedded below.

Modelling conventions:
* Go `float64` values are modelled as `ℚ`. Every claim checked here only
  exercises values on which IEEE-754 double arithmetic is exact (small
  integers), so the exact-rational model agrees with the Go program there.
* The Go `math` package (`math.Sqrt`, `math.Log`, `math.Sin`, `math.Cos`,
  `math.Tan`, `math.Pow`, `math.Mod`) is external to the repository; it is
  abstracted as a `MathFns` record of functions `ℚ → ℚ`. Theorems about
  expressions that use these operators quantify over every `MathFns` model
  that agrees with the IEEE value at the exercised points (for instance
  `sqrt 4 = 2`, `log 1 = 0`, `pow 2 2 = 4`, all of which are exact in
  `float64`).
* Go strings are modelled as their character lists (`List Char`); the
  entry point takes a Lean `String` and works on `.data`, and operator
  symbols / token texts are `List Char` values (written `"sqrt".data` for
  readability). Go iterates `for index, c := range input` over runes with
  byte offsets; all inputs of interest are ASCII, where the byte offset is
  the character index, so the loop is modelled with positional indices. The `start`/`end` token offsets (`uint16` in Go,
  diagnostic only) are modelled as `Nat`; no claim input comes near the
  `uint16` wrap.
* Go slices used as stacks (`append` / `s[:len(s)-1]`) are modelled as
  lists in the same bottom-first order, so `stack[0]` is the list head.
* Fallible Go functions returning `(T, error)` are modelled as
  `Except String T`; the one place the Go code can panic (reading
  `stack[0]` of an empty operand stack) is modelled by the dedicated
  result constructor `GoResult.panic`.
-/

namespace GoCalc

/-- Abstraction of the Go `math` package functions the operator registry
uses. The repository does not define these; theorems assume only the
values needed at the exercised (exactly representable) points. -/
structure MathFns where
  sqrt : ℚ → ℚ
  log : ℚ → ℚ
  sin : ℚ → ℚ
  cos : ℚ → ℚ
  tan : ℚ → ℚ
  pow : ℚ → ℚ → ℚ
  fmod : ℚ → ℚ → ℚ

/-- Go `type Precedence int`. -/
abbrev Precedence := Int

/-- Go `Normal Precedence = iota` (= 0). -/
def Normal : Precedence := 0

/-- Go `Middle` (= 1). -/
def Middle : Precedence := 1

/-- Go `High` (= 2). -/
def High : Precedence := 2

/-- Go `type Type int` (operator fixity); `Type` is reserved in Lean, so the
type is named `OperatorType` and the structure field holding it `opType`. -/
abbrev OperatorType := Int

/-- Go `Infix Type = iota` (= 0): binary operators. -/
def Infix : OperatorType := 0

/-- Go `Function` (= 1): unary function-style operators (sqrt, log, ...). -/
def Function : OperatorType := 1

/-- Go `Suffix` (= 2): unary suffix operators (!). -/
def Suffix : OperatorType := 2

/-- Go interface `OperatorEvaluator`: `Evaluate`, `Supports`, `Precedence`
and `Type` (the latter as the field `opType`). -/
structure OperatorEvaluator where
  Evaluate : ℚ → ℚ → Except String ℚ
  Supports : List Char → Bool
  Precedence : Precedence
  opType : OperatorType

/-- Go `additionEvaluator`. -/
def additionEvaluator : OperatorEvaluator where
  Evaluate := fun left right => .ok (left + right)
  Supports := fun op => op == "+".data
  Precedence := Normal
  opType := Infix

/-- Go `subtractionEvaluator`. -/
def subtractionEvaluator : OperatorEvaluator where
  Evaluate := fun left right => .ok (left - right)
  Supports := fun op => op == "-".data
  Precedence := Normal
  opType := Infix

/-- Go `multiplicationEvaluator`. Its `Precedence()` returns `Normal`
(`operators.go` line 172), not `Middle`. -/
def multiplicationEvaluator : OperatorEvaluator where
  Evaluate := fun left right => .ok (left * right)
  Supports := fun op => op == "*".data
  Precedence := Normal
  opType := Infix

/-- Go `divisionEvaluator`: errors when the right operand is exactly 0. -/
def divisionEvaluator : OperatorEvaluator where
  Evaluate := fun left right =>
    if right = 0 then .error "division by zero" else .ok (left / right)
  Supports := fun op => op == "/".data
  Precedence := Middle
  opType := Infix

/-- Go `remainderEvaluator` (`math.Mod`). -/
def remainderEvaluator (m : MathFns) : OperatorEvaluator where
  Evaluate := fun left right => .ok (m.fmod left right)
  Supports := fun op => op == "%".data
  Precedence := Middle
  opType := Infix

/-- Go `powerEvaluator` (`math.Pow`). -/
def powerEvaluator (m : MathFns) : OperatorEvaluator where
  Evaluate := fun left right => .ok (m.pow left right)
  Supports := fun op => op == "^".data
  Precedence := High
  opType := Infix

/-- Go conversion `int(left)`: a float64 is truncated toward zero. -/
def ratTrunc (q : ℚ) : Int := Int.tdiv q.num (q.den : Int)

/-- The Go loop `for i := 1; i <= n; i++ { result *= float64(i) }` of
`factorialEvaluator.Evaluate`, with `n` clamped to 0 for non-positive
bounds (the loop body never runs then). -/
def factLoop : Nat → ℚ
  | 0 => 1
  | k + 1 => factLoop k * ((k : ℚ) + 1)

/-- Go `factorialEvaluator`: truncates the operand toward zero and
multiplies `1 * 1 * 2 * ... * n`; never reports an error. -/
def factorialEvaluator : OperatorEvaluator where
  Evaluate := fun left _right => .ok (factLoop (ratTrunc left).toNat)
  Supports := fun op => op == "!".data
  Precedence := High
  opType := Suffix

/-- Go `sqrtEvaluator` (`math.Sqrt`). -/
def sqrtEvaluator (m : MathFns) : OperatorEvaluator where
  Evaluate := fun left _right => .ok (m.sqrt left)
  Supports := fun op => op == "sqrt".data
  Precedence := High
  opType := Function

/-- Go `logarithmEvaluator` (`math.Log`, natural logarithm). -/
def logarithmEvaluator (m : MathFns) : OperatorEvaluator where
  Evaluate := fun left _right => .ok (m.log left)
  Supports := fun op => op == "log".data
  Precedence := High
  opType := Function

/-- Go `sinEvaluator` (`math.Sin`). -/
def sinEvaluator (m : MathFns) : OperatorEvaluator where
  Evaluate := fun left _right => .ok (m.sin left)
  Supports := fun op => op == "sin".data
  Precedence := High
  opType := Function

/-- Go `cosEvaluator` (`math.Cos`). -/
def cosEvaluator (m : MathFns) : OperatorEvaluator where
  Evaluate := fun left _right => .ok (m.cos left)
  Supports := fun op => op == "cos".data
  Precedence := High
  opType := Function

/-- Go `tanEvaluator` (`math.Tan`). -/
def tanEvaluator (m : MathFns) : OperatorEvaluator where
  Evaluate := fun left _right => .ok (m.tan left)
  Supports := fun op => op == "tan".data
  Precedence := High
  opType := Function

/-- The factory's backing map, modelled as an association list keyed by the
operator symbol (the Go map is only ever read by key lookup). -/
abbrev OperatorEvaluatorFactory := List (List Char × OperatorEvaluator)

/-- Go `NewOperatorEvaluatorFactory`: the fixed operator registry. -/
def NewOperatorEvaluatorFactory (m : MathFns) : OperatorEvaluatorFactory :=
  [("+".data, additionEvaluator),
   ("-".data, subtractionEvaluator),
   ("*".data, multiplicationEvaluator),
   ("/".data, divisionEvaluator),
   ("%".data, remainderEvaluator m),
   ("^".data, powerEvaluator m),
   ("!".data, factorialEvaluator),
   ("sqrt".data, sqrtEvaluator m),
   ("log".data, logarithmEvaluator m),
   ("sin".data, sinEvaluator m),
   ("cos".data, cosEvaluator m),
   ("tan".data, tanEvaluator m)]

/-- Go `operatorEvaluatorFactory.IsValid`: map membership. -/
def IsValid (f : OperatorEvaluatorFactory) (op : List Char) : Bool :=
  (f.find? (fun p => p.1 == op)).isSome

/-- In Go, `Create` on an unregistered symbol returns a nil interface and any
method call on it would panic; the pipeline only calls `Create` on symbols
that passed `IsValid`, so this default is unreachable from tokenizer
output. Its `opType` of `-1` matches no case of the evaluation switch. -/
def nilEvaluator : OperatorEvaluator where
  Evaluate := fun _ _ => .error "nil evaluator"
  Supports := fun _ => false
  Precedence := 0
  opType := -1

instance : Inhabited OperatorEvaluator := ⟨nilEvaluator⟩

/-- Go `operatorEvaluatorFactory.Create`: map lookup. -/
def Create (f : OperatorEvaluatorFactory) (op : List Char) : OperatorEvaluator :=
  ((f.find? (fun p => p.1 == op)).map Prod.snd).getD nilEvaluator

/-- The factory signature the postfix converter and evaluator read: for each
registered symbol, the precedence and fixity of its evaluator. -/
def factorySig (f : OperatorEvaluatorFactory) :
    List (List Char × Precedence × OperatorType) :=
  f.map (fun p => (p.1, p.2.Precedence, p.2.opType))

/-- Go `type tokenType string` with its five constants. -/
inductive tokenType
  | number
  | operator
  | leftParen
  | rightParen
  | eof
deriving DecidableEq, Repr

/-- Go `type token struct`; the Go field `end` is a Lean keyword and is
named `endPos` here. `start`/`endPos` are diagnostic offsets only. -/
structure token where
  tokenType : tokenType
  value : List Char
  start : Nat
  endPos : Nat
deriving DecidableEq, Repr

/-- Go `char.isNumber`: `c >= '0' && c <= '9' || c == '.'`. -/
def charIsNumber (c : Char) : Bool :=
  (decide ('0' ≤ c) && decide (c ≤ '9')) || c == '.'

/-- Go `char.isParen`. -/
def charIsParen (c : Char) : Bool :=
  c == '(' || c == ')'

/-- Go `char.isLeftParen`. -/
def charIsLeftParen (c : Char) : Bool :=
  c == '('

/-- The mutable locals of `Evaluator.tokenize`: the position cursor, the
tokens accumulated so far, and the two accumulation buffers. -/
structure tokenizeState where
  iterator : Nat
  tokens : List token
  operatorBuilder : List Char
  numberBuilder : List Char
deriving Repr

/-- The `visitNumber` closure of `tokenize`: flush the numeric buffer as one
Number token. -/
def visitNumber (index : Nat) (st : tokenizeState) : tokenizeState :=
  if st.numberBuilder = [] then st
  else
    { iterator := index + st.numberBuilder.length
      tokens := st.tokens ++
        [{ tokenType := .number, value := st.numberBuilder,
           start := st.iterator, endPos := index }]
      operatorBuilder := st.operatorBuilder
      numberBuilder := [] }

/-- The loop of `Evaluator.symbolSegments` over the characters of the
accumulated symbol run `op` (with their indices), greedily emitting the
shortest valid operator prefix. `builder` is the sub-buffer, `acc` the
tokens emitted so far. -/
def symbolSegmentsLoop (f : OperatorEvaluatorFactory) (index : Nat) :
    List (Nat × Char) → List Char → List token → Except String (List token)
  | [], builder, acc =>
    if builder ≠ [] then
      .error ("invalid operator: " ++ String.mk builder)
    else .ok acc
  | (i, c) :: rest, builder, acc =>
    let builder1 := if c ≠ ' ' then builder ++ [c] else builder
    let curOp := builder1
    if IsValid f curOp then
      symbolSegmentsLoop f index rest []
        (acc ++ [{ tokenType := .operator, value := curOp,
                   start := index, endPos := index + i }])
    else if c = ' ' then .error "invalid space(s) in number or operator"
    else symbolSegmentsLoop f index rest builder1 acc

/-- Go `Evaluator.symbolSegments`: a whole run that is itself a valid
operator becomes one token; otherwise it is decomposed left to right. -/
def symbolSegments (f : OperatorEvaluatorFactory) (op : List Char) (index : Nat) :
    Except String (List token) :=
  if IsValid f op then
    .ok [{ tokenType := .operator, value := op, start := index, endPos := index }]
  else symbolSegmentsLoop f index op.enum [] []

/-- The `visitOperator` closure of `tokenize`: flush the symbol buffer
through `symbolSegments`. -/
def visitOperator (f : OperatorEvaluatorFactory) (index : Nat)
    (st : tokenizeState) : Except String tokenizeState :=
  if st.operatorBuilder = [] then .ok st
  else
    match symbolSegments f st.operatorBuilder index with
    | .error e => .error e
    | .ok segments =>
      .ok { iterator := st.iterator + st.operatorBuilder.length
            tokens := st.tokens ++ segments
            operatorBuilder := []
            numberBuilder := st.numberBuilder }

/-- The `for index, c := range input` loop body of `Evaluator.tokenize`. -/
def tokenizeLoop (f : OperatorEvaluatorFactory) :
    List (Nat × Char) → tokenizeState → Except String tokenizeState
  | [], st => .ok st
  | (index, c) :: rest, st =>
    if charIsNumber c then
      match visitOperator f index { st with numberBuilder := st.numberBuilder ++ [c] } with
      | .error e => .error e
      | .ok st2 => tokenizeLoop f rest st2
    else if charIsParen c then
      let t : tokenType := if charIsLeftParen c then .leftParen else .rightParen
      match visitOperator f index (visitNumber index st) with
      | .error e => .error e
      | .ok st2 =>
        tokenizeLoop f rest
          { st2 with
            tokens := st2.tokens ++
              [{ tokenType := t, value := [c],
                 start := st2.iterator, endPos := index }]
            iterator := st2.iterator + 1 }
    else if c = ' ' then
      if st.numberBuilder ≠ [] then tokenizeLoop f rest (visitNumber index st)
      else if st.operatorBuilder ≠ [] then
        match visitOperator f index st with
        | .error e => .error e
        | .ok st1 => tokenizeLoop f rest st1
      else tokenizeLoop f rest { st with iterator := st.iterator + 1 }
    else
      let st1 := visitNumber index st
      tokenizeLoop f rest { st1 with operatorBuilder := st1.operatorBuilder ++ [c] }

/-- The loop of `Evaluator.validate` searching for two adjacent Number
tokens. -/
def hasConsecutiveNumbers : List token → Bool
  | t1 :: t2 :: rest =>
    if t1.tokenType = tokenType.number ∧ t2.tokenType = tokenType.number then true
    else hasConsecutiveNumbers (t2 :: rest)
  | _ => false

/-- Go `Evaluator.validate`. -/
def validate (tokens : List token) : Except String Unit :=
  match tokens with
  | [] => .error "no tokens found"
  | t0 :: _ =>
    if t0.tokenType = tokenType.operator then
      .error "expression cannot start with an operator"
    else if (tokens.getLastD t0).tokenType = tokenType.operator then
      .error "expression cannot end with an operator"
    else if hasConsecutiveNumbers tokens then
      .error "too much numbers without operator between them"
    else .ok ()

/-- Go `Evaluator.tokenize`: the scan loop, the two final flushes at
`len(input)`, then validation. -/
def tokenize (f : OperatorEvaluatorFactory) (input : String) :
    Except String (List token) :=
  match tokenizeLoop f input.data.enum
      { iterator := 0, tokens := [], operatorBuilder := [], numberBuilder := [] } with
  | .error e => .error e
  | .ok st =>
    match visitOperator f input.data.length (visitNumber input.data.length st) with
    | .error e => .error e
    | .ok st2 =>
      match validate st2.tokens with
      | .error e => .error e
      | .ok _ => .ok st2.tokens

/-- The inner pop loop of the Operator case of `toReversePolishNotation`:
pop every stack top that is an operator of precedence at least `p` (the
incoming operator's) onto the output. The operator stack is a list with
its head as the top. Returns (stack, result). -/
def popHigherPrecedence (f : OperatorEvaluatorFactory) (p : Precedence) :
    List token → List token → List token × List token
  | [], result => ([], result)
  | top :: rest, result =>
    if top.tokenType = tokenType.operator ∧ p ≤ (Create f top.value).Precedence then
      popHigherPrecedence f p rest (result ++ [top])
    else (top :: rest, result)

/-- The RightParen case of `toReversePolishNotation`: pop onto the output
until a LeftParen is popped (and dropped). An emptied stack without a
LeftParen is not an error at this point (faithful to the Go code). -/
def popUntilLeftParen : List token → List token → List token × List token
  | [], result => ([], result)
  | top :: rest, result =>
    if top.tokenType = tokenType.leftParen then (rest, result)
    else popUntilLeftParen rest (result ++ [top])

/-- The final drain of `toReversePolishNotation`: any parenthesis left on
the stack is a mismatched-parentheses error. -/
def drainStack : List token → List token → Except String (List token)
  | [], result => .ok result
  | top :: rest, result =>
    if top.tokenType = tokenType.leftParen ∨ top.tokenType = tokenType.rightParen then
      .error "mismatched parentheses"
    else drainStack rest (result ++ [top])

/-- The token loop of `toReversePolishNotation`. A token of type `eof`
matches no switch case and is skipped, as in Go. -/
def rpnLoop (f : OperatorEvaluatorFactory) :
    List token → List token → List token → List token × List token
  | [], stack, result => (stack, result)
  | t :: ts, stack, result =>
    match t.tokenType with
    | .number => rpnLoop f ts stack (result ++ [t])
    | .operator =>
      let p := (Create f t.value).Precedence
      let sr := popHigherPrecedence f p stack result
      rpnLoop f ts (t :: sr.1) sr.2
    | .leftParen => rpnLoop f ts (t :: stack) result
    | .rightParen =>
      let sr := popUntilLeftParen stack result
      rpnLoop f ts sr.1 sr.2
    | .eof => rpnLoop f ts stack result

/-- Go `Evaluator.toReversePolishNotation`: shunting-yard conversion. -/
def toReversePolishNotation (f : OperatorEvaluatorFactory)
    (tokens : List token) : Except String (List token) :=
  let sr := rpnLoop f tokens [] []
  drainStack sr.1 sr.2

-- Equality of `Except` results is decidable; used to settle concrete runs
-- of the embedding by evaluation.
deriving instance DecidableEq for Except

/-- Decimal value of a digit run. -/
def digitsToNat (l : List Char) : Nat :=
  l.foldl (fun a c => 10 * a + (c.toNat - '0'.toNat)) 0

/-- Modelled from Go `strconv.Atoi` on the strings a Number token can carry:
an optional sign, then decimal digits, rejected (None) when empty, when a
non-digit appears, or when the value is outside the 64-bit int range (Go
returns ErrRange there, which `parseNumber` turns into 0). -/
def atoi (s : List Char) : Option Int :=
  let sd : Int × List Char :=
    match s with
    | '+' :: rest => (1, rest)
    | '-' :: rest => (-1, rest)
    | l => (1, l)
  if sd.2 = [] then none
  else if sd.2.all (fun c => decide ('0' ≤ c) && decide (c ≤ '9')) then
    let v : Int := sd.1 * (digitsToNat sd.2 : Int)
    if v < -(2 ^ 63) ∨ (2 ^ 63 - 1 : Int) < v then none else some v
  else none

/-- Splits a character run at its first '.' if any. -/
def splitAtDot : List Char → Option (List Char × List Char)
  | [] => none
  | c :: rest =>
    if c = '.' then some ([], rest)
    else
      match splitAtDot rest with
      | none => none
      | some ab => some (c :: ab.1, ab.2)

/-- Modelled from Go `strconv.ParseFloat` restricted to the strings a
Number token can carry (decimal digits and dots): `12.5`, `12.` and `.5`
parse to their exact decimal value, anything else (`.`, `1.2.3`) is an
invalid-syntax error. IEEE rounding of the decimal is not modelled; no
claim exercises a non-exact literal. -/
def parseFloat (s : List Char) : Except String ℚ :=
  let bad : Except String ℚ :=
    .error ("strconv.ParseFloat: parsing " ++ String.mk s ++ ": invalid syntax")
  let digits : List Char → Bool := fun l =>
    l.all (fun c => decide ('0' ≤ c) && decide (c ≤ '9'))
  match splitAtDot s with
  | none =>
    if s ≠ [] ∧ digits s then .ok (digitsToNat s : ℚ) else bad
  | some ab =>
    if (ab.1 ≠ [] ∨ ab.2 ≠ []) ∧ digits ab.1 ∧ digits ab.2 then
      .ok ((digitsToNat ab.1 : ℚ) + (digitsToNat ab.2 : ℚ) / (10 : ℚ) ^ ab.2.length)
    else bad

/-- Go `parseNumber`: text containing '.' goes through float parsing (errors
propagate); otherwise integer parsing, where a failure is silently turned
into the value 0 with no error. -/
def parseNumber (input : List Char) : Except String ℚ :=
  if input.contains '.' then parseFloat input
  else
    match atoi input with
    | none => .ok 0
    | some n => .ok (n : ℚ)

/-- Result of `EvaluateExpression`: a value, a returned error, or the Go
runtime panic that reading `stack[0]` of an empty operand stack raises. -/
inductive GoResult
  | ok (value : ℚ)
  | err (msg : String)
  | panic
deriving DecidableEq, Repr

/-- The postfix-evaluation loop of `EvaluateExpression`. The operand stack
is a list in Go slice order (head = bottom, pushes at the end). -/
def evalLoop (f : OperatorEvaluatorFactory) :
    List token → List ℚ → Except String (List ℚ)
  | [], stack => .ok stack
  | t :: ts, stack =>
    match t.tokenType with
    | .number =>
      match parseNumber t.value with
      | .error e => .error e
      | .ok num => evalLoop f ts (stack ++ [num])
    | .operator =>
      let operatorEvaluator := Create f t.value
      if operatorEvaluator.opType = Function then
        match stack.getLast? with
        | none => .error "invalid expression"
        | some right =>
          match operatorEvaluator.Evaluate right 0 with
          | .error e => .error e
          | .ok result => evalLoop f ts (stack.dropLast ++ [result])
      else if operatorEvaluator.opType = Infix then
        if stack.length < 2 then .error "invalid expression"
        else
          let right := stack.getLastD 0
          let left := stack.dropLast.getLastD 0
          match operatorEvaluator.Evaluate left right with
          | .error e => .error e
          | .ok result => evalLoop f ts (stack.dropLast.dropLast ++ [result])
      else if operatorEvaluator.opType = Suffix then
        match stack.getLast? with
        | none => .error "invalid expression"
        | some left =>
          match operatorEvaluator.Evaluate left 0 with
          | .error e => .error e
          | .ok result => evalLoop f ts (stack.dropLast ++ [result])
      else evalLoop f ts stack
    | _ => evalLoop f ts stack

/-- Go `Evaluator.EvaluateExpression` for an evaluator whose factory is
`f`: tokenize (which validates), convert to postfix, evaluate, and read
`stack[0]` — a Go runtime panic when the stack is empty. -/
def EvaluateExpressionF (f : OperatorEvaluatorFactory) (expression : String) :
    GoResult :=
  match tokenize f expression with
  | .error e => .err e
  | .ok tokens =>
    if tokens = [] then .err "no tokens found"
    else
      match toReversePolishNotation f tokens with
      | .error e => .err e
      | .ok polishNotation =>
        match evalLoop f polishNotation [] with
        | .error e => .err e
        | .ok stack =>
          match stack with
          | [] => .panic
          | v :: _ => .ok v

/-- `EvaluateExpression` as `main` uses it: on the evaluator built with
`NewOperatorEvaluatorFactory`, for a given model `m` of the math package. -/
def EvaluateExpression (m : MathFns) (expression : String) : GoResult :=
  EvaluateExpressionF (NewOperatorEvaluatorFactory m) expression

/-- A sample model of the Go math package: it agrees with the exact IEEE-754
double values at every point the concrete witness expressions evaluate the
math functions (`math.Sqrt(4) = 2`, `math.Log(1) = 0`, `math.Pow(2,2) = 4`,
all exact in float64). The general theorems quantify over every model
agreeing there; this one only instantiates their witnesses. -/
def mathFns0 : MathFns where
  sqrt := fun x => if x = 4 then 2 else 0
  log := fun _ => 0
  sin := fun _ => 0
  cos := fun _ => 1
  tan := fun _ => 0
  pow := fun x y => if x = 2 ∧ y = 2 then 4 else 0
  fmod := fun _ _ => 0

/-- One call of the calculator process: the only state shared between calls
is the evaluator's registry, which `EvaluateExpression` reads and never
writes (no method ever assigns through the receiver), so a call returns it
unchanged. -/
def callStep (f : OperatorEvaluatorFactory) (s : String) :
    GoResult × OperatorEvaluatorFactory :=
  (EvaluateExpressionF f s, f)

/-- A sequence of calls against one evaluator, threading the registry state
through every call; records each call's input and result. -/
def runCalls (f : OperatorEvaluatorFactory) :
    List String → List (String × GoResult) × OperatorEvaluatorFactory
  | [] => ([], f)
  | s :: rest =>
    let rf := callStep f s
    let out := runCalls rf.2 rest
    ((s, rf.1) :: out.1, out.2)

/-- Numeric value of the digit character '0', used when evaluating the
embedding on concrete inputs. -/
theorem charToNat_zero : Char.toNat '0' = 48 := rfl

/-- Numeric value of the digit character '1'. -/
theorem charToNat_one : Char.toNat '1' = 49 := rfl

/-- Numeric value of the digit character '2'. -/
theorem charToNat_two : Char.toNat '2' = 50 := rfl

/-- Numeric value of the digit character '3'. -/
theorem charToNat_three : Char.toNat '3' = 51 := rfl

/-- Numeric value of the digit character '4'. -/
theorem charToNat_four : Char.toNat '4' = 52 := rfl

/-- Numeric value of the digit character '5'. -/
theorem charToNat_five : Char.toNat '5' = 53 := rfl

/-- Numeric value of the digit character '9'. -/
theorem charToNat_nine : Char.toNat '9' = 57 := rfl

/-- The tokenizer consults the factory only through `IsValid`, which reads
only the registered symbols; two factories with the same symbols make
`IsValid` agree. -/
theorem IsValid_congr (op : List Char) :
    ∀ (l1 l2 : OperatorEvaluatorFactory),
      l1.map Prod.fst = l2.map Prod.fst → IsValid l1 op = IsValid l2 op := by
  intro l1
  induction l1 with
  | nil =>
    intro l2 h
    cases l2 with
    | nil => rfl
    | cons q r2 => simp at h
  | cons p r1 ih =>
    intro l2 h
    cases l2 with
    | nil => simp at h
    | cons q r2 =>
      simp only [List.map_cons, List.cons.injEq] at h
      simp only [IsValid, List.find?, h.1]
      cases hq : q.1 == op with
      | true => rfl
      | false => simpa [IsValid] using ih r2 h.2

/-- Two factories with the same signature make the precedence and fixity of
`Create` agree on every symbol (`Create` of an unregistered symbol is the
same `nilEvaluator` on both sides). -/
theorem Create_sig_congr (op : List Char) :
    ∀ (l1 l2 : OperatorEvaluatorFactory), factorySig l1 = factorySig l2 →
      (Create l1 op).Precedence = (Create l2 op).Precedence ∧
        (Create l1 op).opType = (Create l2 op).opType := by
  intro l1
  induction l1 with
  | nil =>
    intro l2 h
    cases l2 with
    | nil => exact ⟨rfl, rfl⟩
    | cons q r2 => simp [factorySig] at h
  | cons p r1 ih =>
    intro l2 h
    cases l2 with
    | nil => simp [factorySig] at h
    | cons q r2 =>
      simp only [factorySig, List.map_cons, List.cons.injEq, Prod.mk.injEq] at h
      simp only [Create, List.find?, h.1.1]
      cases hq : q.1 == op with
      | true => exact ⟨h.1.2.1, h.1.2.2⟩
      | false => simpa [Create] using ih r2 h.2

theorem symbolSegmentsLoop_congr (l1 l2 : OperatorEvaluatorFactory)
    (hk : l1.map Prod.fst = l2.map Prod.fst) (index : Nat) :
    ∀ (cs : List (Nat × Char)) (builder : List Char) (acc : List token),
      symbolSegmentsLoop l1 index cs builder acc =
        symbolSegmentsLoop l2 index cs builder acc := by
  intro cs
  induction cs with
  | nil => intro builder acc; rfl
  | cons ic rest ih =>
    intro builder acc
    obtain ⟨i, c⟩ := ic
    simp only [symbolSegmentsLoop]
    rw [IsValid_congr _ l1 l2 hk]
    split_ifs <;> first | rfl | exact ih _ _

theorem symbolSegments_congr (l1 l2 : OperatorEvaluatorFactory)
    (hk : l1.map Prod.fst = l2.map Prod.fst) (op : List Char) (index : Nat) :
    symbolSegments l1 op index = symbolSegments l2 op index := by
  simp only [symbolSegments]
  rw [IsValid_congr op l1 l2 hk]
  split_ifs with h
  · rfl
  · exact symbolSegmentsLoop_congr l1 l2 hk index _ _ _

theorem visitOperator_congr (l1 l2 : OperatorEvaluatorFactory)
    (hk : l1.map Prod.fst = l2.map Prod.fst) (index : Nat) (st : tokenizeState) :
    visitOperator l1 index st = visitOperator l2 index st := by
  simp only [visitOperator]
  split_ifs with h
  · rfl
  · rw [symbolSegments_congr l1 l2 hk]

theorem tokenizeLoop_congr (l1 l2 : OperatorEvaluatorFactory)
    (hk : l1.map Prod.fst = l2.map Prod.fst) :
    ∀ (cs : List (Nat × Char)) (st : tokenizeState),
      tokenizeLoop l1 cs st = tokenizeLoop l2 cs st := by
  intro cs
  induction cs with
  | nil => intro st; rfl
  | cons ic rest ih =>
    intro st
    obtain ⟨index, c⟩ := ic
    simp only [tokenizeLoop]
    split_ifs <;>
      first
      | exact ih _
      | rfl
      | (rw [visitOperator_congr l1 l2 hk]
         cases hv : visitOperator l2 index { st with numberBuilder := st.numberBuilder ++ [c] } with
         | error e => rfl
         | ok st2 => exact ih _)
      | (rw [visitOperator_congr l1 l2 hk]
         cases hv : visitOperator l2 index (visitNumber index st) with
         | error e => rfl
         | ok st2 => exact ih _)
      | (rw [visitOperator_congr l1 l2 hk]
         cases hv : visitOperator l2 index st with
         | error e => rfl
         | ok st1 => exact ih _)

theorem tokenize_congr (l1 l2 : OperatorEvaluatorFactory)
    (hk : l1.map Prod.fst = l2.map Prod.fst) (input : String) :
    tokenize l1 input = tokenize l2 input := by
  simp only [tokenize]
  rw [tokenizeLoop_congr l1 l2 hk]
  cases h : tokenizeLoop l2 input.data.enum
      { iterator := 0, tokens := [], operatorBuilder := [], numberBuilder := [] } with
  | error e => rfl
  | ok st => simp only [visitOperator_congr l1 l2 hk]

theorem popHigherPrecedence_congr (l1 l2 : OperatorEvaluatorFactory)
    (hs : factorySig l1 = factorySig l2) (p : Precedence) :
    ∀ (stack result : List token),
      popHigherPrecedence l1 p stack result = popHigherPrecedence l2 p stack result := by
  intro stack
  induction stack with
  | nil => intro result; rfl
  | cons top rest ih =>
    intro result
    simp only [popHigherPrecedence]
    rw [(Create_sig_congr top.value l1 l2 hs).1]
    split_ifs with h
    · exact ih _
    · rfl

theorem rpnLoop_congr (l1 l2 : OperatorEvaluatorFactory)
    (hs : factorySig l1 = factorySig l2) :
    ∀ (ts stack result : List token),
      rpnLoop l1 ts stack result = rpnLoop l2 ts stack result := by
  intro ts
  induction ts with
  | nil => intro stack result; rfl
  | cons t rest ih =>
    intro stack result
    simp only [rpnLoop]
    cases ht : t.tokenType with
    | number => exact ih _ _
    | operator =>
      rw [(Create_sig_congr t.value l1 l2 hs).1, popHigherPrecedence_congr l1 l2 hs]
      exact ih _ _
    | leftParen => exact ih _ _
    | rightParen => exact ih _ _
    | eof => exact ih _ _

theorem toReversePolishNotation_congr (l1 l2 : OperatorEvaluatorFactory)
    (hs : factorySig l1 = factorySig l2) (tokens : List token) :
    toReversePolishNotation l1 tokens = toReversePolishNotation l2 tokens := by
  simp only [toReversePolishNotation]
  rw [rpnLoop_congr l1 l2 hs]

theorem NewFactory_keys (m : MathFns) :
    (NewOperatorEvaluatorFactory m).map Prod.fst =
      (NewOperatorEvaluatorFactory mathFns0).map Prod.fst := rfl

theorem NewFactory_sig (m : MathFns) :
    factorySig (NewOperatorEvaluatorFactory m) =
      factorySig (NewOperatorEvaluatorFactory mathFns0) := rfl


/-- C1: for every model of the math package, the program evaluates `1+2*3`
to 9, not 7: `multiplicationEvaluator.Precedence()` is `Normal`, the same
precedence class as addition, so the shunting-yard conversion pops `+`
before pushing `*` and the expression associates as `(1+2)*3`. -/
theorem multiplication_precedence_bug (m : MathFns) :
    EvaluateExpression m "1+2*3" = GoResult.ok 9 := by
  have h1 : tokenize (NewOperatorEvaluatorFactory m) "1+2*3" =
      .ok [{ tokenType := .number, value := ['1'], start := 0, endPos := 1 },
           { tokenType := .operator, value := ['+'], start := 2, endPos := 2 },
           { tokenType := .number, value := ['2'], start := 3, endPos := 3 },
           { tokenType := .operator, value := ['*'], start := 4, endPos := 4 },
           { tokenType := .number, value := ['3'], start := 5, endPos := 5 }] :=
    (tokenize_congr _ _ (NewFactory_keys m) _).trans (by decide)
  have h2 : toReversePolishNotation (NewOperatorEvaluatorFactory m)
      [{ tokenType := .number, value := ['1'], start := 0, endPos := 1 },
       { tokenType := .operator, value := ['+'], start := 2, endPos := 2 },
       { tokenType := .number, value := ['2'], start := 3, endPos := 3 },
       { tokenType := .operator, value := ['*'], start := 4, endPos := 4 },
       { tokenType := .number, value := ['3'], start := 5, endPos := 5 }] =
      .ok [{ tokenType := .number, value := ['1'], start := 0, endPos := 1 },
           { tokenType := .number, value := ['2'], start := 3, endPos := 3 },
           { tokenType := .operator, value := ['+'], start := 2, endPos := 2 },
           { tokenType := .number, value := ['3'], start := 5, endPos := 5 },
           { tokenType := .operator, value := ['*'], start := 4, endPos := 4 }] :=
    (toReversePolishNotation_congr _ _ (NewFactory_sig m) _).trans (by decide)
  simp only [EvaluateExpression, EvaluateExpressionF, h1, h2]
  norm_num +decide [evalLoop, parseNumber, atoi, digitsToNat, Create,
    NewOperatorEvaluatorFactory, additionEvaluator, subtractionEvaluator,
    multiplicationEvaluator, divisionEvaluator, remainderEvaluator,
    powerEvaluator, factorialEvaluator, sqrtEvaluator, logarithmEvaluator,
    sinEvaluator, cosEvaluator, tanEvaluator, nilEvaluator,
    Normal, Middle, High, Infix, Function, Suffix,
    charToNat_zero, charToNat_one, charToNat_two, charToNat_three,
    charToNat_four, charToNat_five, charToNat_nine]

/-- C6: division by exactly zero fails with a division-by-zero error: at the
operator level for every left operand, and end to end for `1/0` in every
model of the math package; no numeric result is produced. -/
theorem division_by_zero_errors :
    (∀ left : ℚ, divisionEvaluator.Evaluate left 0 = .error "division by zero") ∧
    (∀ m : MathFns, EvaluateExpression m "1/0" = GoResult.err "division by zero") := by
  constructor
  · intro left
    simp [divisionEvaluator]
  · intro m
    have h1 : tokenize (NewOperatorEvaluatorFactory m) "1/0" =
        .ok [{ tokenType := .number, value := ['1'], start := 0, endPos := 1 },
             { tokenType := .operator, value := ['/'], start := 2, endPos := 2 },
             { tokenType := .number, value := ['0'], start := 3, endPos := 3 }] :=
      (tokenize_congr _ _ (NewFactory_keys m) _).trans (by decide)
    have h2 : toReversePolishNotation (NewOperatorEvaluatorFactory m)
        [{ tokenType := .number, value := ['1'], start := 0, endPos := 1 },
         { tokenType := .operator, value := ['/'], start := 2, endPos := 2 },
         { tokenType := .number, value := ['0'], start := 3, endPos := 3 }] =
        .ok [{ tokenType := .number, value := ['1'], start := 0, endPos := 1 },
             { tokenType := .number, value := ['0'], start := 3, endPos := 3 },
             { tokenType := .operator, value := ['/'], start := 2, endPos := 2 }] :=
      (toReversePolishNotation_congr _ _ (NewFactory_sig m) _).trans (by decide)
    simp only [EvaluateExpression, EvaluateExpressionF, h1, h2]
    norm_num +decide [evalLoop, parseNumber, atoi, digitsToNat, Create,
      NewOperatorEvaluatorFactory, additionEvaluator, subtractionEvaluator,
      multiplicationEvaluator, divisionEvaluator, remainderEvaluator,
      powerEvaluator, factorialEvaluator, sqrtEvaluator, logarithmEvaluator,
      sinEvaluator, cosEvaluator, tanEvaluator, nilEvaluator,
      Normal, Middle, High, Infix, Function, Suffix,
      charToNat_zero, charToNat_one, charToNat_two, charToNat_three,
      charToNat_four, charToNat_five, charToNat_nine]

/-- C5 (failing case): the input `()` passes tokenization and validation,
its postfix conversion succeeds with an empty sequence, and evaluation then
reads `stack[0]` of an empty operand stack — the Go runtime panic — so the
claimed in-bounds guarantee does not hold. -/
theorem empty_parens_panic (m : MathFns) :
    tokenize (NewOperatorEvaluatorFactory m) "()" =
      .ok [{ tokenType := .leftParen, value := ['('], start := 0, endPos := 0 },
           { tokenType := .rightParen, value := [')'], start := 1, endPos := 1 }] ∧
    toReversePolishNotation (NewOperatorEvaluatorFactory m)
      [{ tokenType := .leftParen, value := ['('], start := 0, endPos := 0 },
       { tokenType := .rightParen, value := [')'], start := 1, endPos := 1 }] = .ok [] ∧
    EvaluateExpression m "()" = GoResult.panic := by
  have h1 : tokenize (NewOperatorEvaluatorFactory m) "()" =
      .ok [{ tokenType := .leftParen, value := ['('], start := 0, endPos := 0 },
           { tokenType := .rightParen, value := [')'], start := 1, endPos := 1 }] :=
    (tokenize_congr _ _ (NewFactory_keys m) _).trans (by decide)
  have h2 : toReversePolishNotation (NewOperatorEvaluatorFactory m)
      [{ tokenType := .leftParen, value := ['('], start := 0, endPos := 0 },
       { tokenType := .rightParen, value := [')'], start := 1, endPos := 1 }] = .ok [] :=
    (toReversePolishNotation_congr _ _ (NewFactory_sig m) _).trans (by decide)
  refine ⟨h1, h2, ?_⟩
  simp only [EvaluateExpression, EvaluateExpressionF, h1, h2]
  norm_num +decide [evalLoop]

/-- C4 (counterexample): `1+2)` does not fail: the unmatched right
parenthesis empties the operator stack without raising an error and the
program returns 3. -/
theorem unmatched_right_paren_accepted :
    EvaluateExpression mathFns0 "1+2)" = GoResult.ok 3 := by
  have h1 : tokenize (NewOperatorEvaluatorFactory mathFns0) "1+2)" =
      .ok [{ tokenType := .number, value := ['1'], start := 0, endPos := 1 },
           { tokenType := .operator, value := ['+'], start := 2, endPos := 2 },
           { tokenType := .number, value := ['2'], start := 3, endPos := 3 },
           { tokenType := .rightParen, value := [')'], start := 4, endPos := 3 }] := by decide
  have h2 : toReversePolishNotation (NewOperatorEvaluatorFactory mathFns0)
      [{ tokenType := .number, value := ['1'], start := 0, endPos := 1 },
       { tokenType := .operator, value := ['+'], start := 2, endPos := 2 },
       { tokenType := .number, value := ['2'], start := 3, endPos := 3 },
       { tokenType := .rightParen, value := [')'], start := 4, endPos := 3 }] =
      .ok [{ tokenType := .number, value := ['1'], start := 0, endPos := 1 },
           { tokenType := .number, value := ['2'], start := 3, endPos := 3 },
           { tokenType := .operator, value := ['+'], start := 2, endPos := 2 }] := by decide
  simp only [EvaluateExpression, EvaluateExpressionF, h1, h2]
  norm_num +decide [evalLoop, parseNumber, atoi, digitsToNat, Create,
    NewOperatorEvaluatorFactory, additionEvaluator, subtractionEvaluator,
    multiplicationEvaluator, divisionEvaluator, remainderEvaluator,
    powerEvaluator, factorialEvaluator, sqrtEvaluator, logarithmEvaluator,
    sinEvaluator, cosEvaluator, tanEvaluator, nilEvaluator,
    Normal, Middle, High, Infix, Function, Suffix,
    charToNat_zero, charToNat_one, charToNat_two, charToNat_three,
    charToNat_four, charToNat_five, charToNat_nine]

/-- C4 (amended): an unclosed left parenthesis, as in `(1+2`, fails with the
mismatched-parentheses SyntaxError; an unmatched right parenthesis, as in
`1+2)`, is silently discarded by the conversion and the numeric result 3 is
returned, in every model of the math package. -/
theorem paren_mismatch_behavior (m : MathFns) :
    EvaluateExpression m "(1+2" = GoResult.err "mismatched parentheses" ∧
    EvaluateExpression m "1+2)" = GoResult.ok 3 := by
  constructor
  · have h1 : tokenize (NewOperatorEvaluatorFactory m) "(1+2" =
        .ok [{ tokenType := .leftParen, value := ['('], start := 0, endPos := 0 },
             { tokenType := .number, value := ['1'], start := 1, endPos := 2 },
             { tokenType := .operator, value := ['+'], start := 3, endPos := 3 },
             { tokenType := .number, value := ['2'], start := 4, endPos := 4 }] :=
      (tokenize_congr _ _ (NewFactory_keys m) _).trans (by decide)
    have h2 : toReversePolishNotation (NewOperatorEvaluatorFactory m)
        [{ tokenType := .leftParen, value := ['('], start := 0, endPos := 0 },
         { tokenType := .number, value := ['1'], start := 1, endPos := 2 },
         { tokenType := .operator, value := ['+'], start := 3, endPos := 3 },
         { tokenType := .number, value := ['2'], start := 4, endPos := 4 }] =
        .error "mismatched parentheses" :=
      (toReversePolishNotation_congr _ _ (NewFactory_sig m) _).trans (by decide)
    simp only [EvaluateExpression, EvaluateExpressionF, h1, h2]
    simp
  · have h1 : tokenize (NewOperatorEvaluatorFactory m) "1+2)" =
        .ok [{ tokenType := .number, value := ['1'], start := 0, endPos := 1 },
             { tokenType := .operator, value := ['+'], start := 2, endPos := 2 },
             { tokenType := .number, value := ['2'], start := 3, endPos := 3 },
             { tokenType := .rightParen, value := [')'], start := 4, endPos := 3 }] :=
      (tokenize_congr _ _ (NewFactory_keys m) _).trans (by decide)
    have h2 : toReversePolishNotation (NewOperatorEvaluatorFactory m)
        [{ tokenType := .number, value := ['1'], start := 0, endPos := 1 },
         { tokenType := .operator, value := ['+'], start := 2, endPos := 2 },
         { tokenType := .number, value := ['2'], start := 3, endPos := 3 },
         { tokenType := .rightParen, value := [')'], start := 4, endPos := 3 }] =
        .ok [{ tokenType := .number, value := ['1'], start := 0, endPos := 1 },
             { tokenType := .number, value := ['2'], start := 3, endPos := 3 },
             { tokenType := .operator, value := ['+'], start := 2, endPos := 2 }] :=
      (toReversePolishNotation_congr _ _ (NewFactory_sig m) _).trans (by decide)
    simp only [EvaluateExpression, EvaluateExpressionF, h1, h2]
    norm_num +decide [evalLoop, parseNumber, atoi, digitsToNat, Create,
      NewOperatorEvaluatorFactory, additionEvaluator, subtractionEvaluator,
      multiplicationEvaluator, divisionEvaluator, remainderEvaluator,
      powerEvaluator, factorialEvaluator, sqrtEvaluator, logarithmEvaluator,
      sinEvaluator, cosEvaluator, tanEvaluator, nilEvaluator,
      Normal, Middle, High, Infix, Function, Suffix,
      charToNat_zero, charToNat_one, charToNat_two, charToNat_three,
      charToNat_four, charToNat_five, charToNat_nine]

/-- Appending two postfix segments evaluates the first to an intermediate
stack and continues with the second; used to evaluate long postfix
sequences piecewise. -/
theorem evalLoop_append (f : OperatorEvaluatorFactory) :
    ∀ (l1 l2 : List token) (stack : List ℚ),
      evalLoop f (l1 ++ l2) stack =
        match evalLoop f l1 stack with
        | .error e => .error e
        | .ok st2 => evalLoop f l2 st2 := by
  intro l1
  induction l1 with
  | nil => intro l2 stack; simp [evalLoop]
  | cons t ts ih =>
    intro l2 stack
    obtain ⟨tt, tv, tstart, tend⟩ := t
    cases tt with
    | number =>
      simp only [List.cons_append, evalLoop]
      cases hp : parseNumber tv with
      | error e => rfl
      | ok num => exact ih _ _
    | operator =>
      simp only [List.cons_append, evalLoop]
      split_ifs with h1 h2 h3 h4
      · cases hg : stack.getLast? with
        | none => rfl
        | some right =>
          try simp only []
          cases he : (Create f tv).Evaluate right 0 with
          | error e => rfl
          | ok result => exact ih _ _
      · rfl
      · try simp only []
        cases he : (Create f tv).Evaluate (stack.dropLast.getLastD 0)
            (stack.getLastD 0) with
        | error e => rfl
        | ok result => exact ih _ _
      · cases hg : stack.getLast? with
        | none => rfl
        | some left =>
          try simp only []
          cases he : (Create f tv).Evaluate left 0 with
          | error e => rfl
          | ok result => exact ih _ _
      · exact ih _ _
    | leftParen =>
      simp only [List.cons_append, evalLoop]
      exact ih _ _
    | rightParen =>
      simp only [List.cons_append, evalLoop]
      exact ih _ _
    | eof =>
      simp only [List.cons_append, evalLoop]
      exact ih _ _

/-- The value computed by the factorial loop is the mathematical factorial. -/
theorem factLoop_eq_factorial (n : ℕ) : factLoop n = (n.factorial : ℚ) := by
  induction n with
  | zero => simp [factLoop, Nat.factorial]
  | succ k ih =>
    simp only [factLoop, Nat.factorial, ih]
    push_cast
    ring

theorem ratTrunc_three : ratTrunc 3 = 3 := by
  rw [ratTrunc]
  norm_num

theorem intToNat_three : Int.toNat 3 = 3 := rfl

theorem factLoop_three : factLoop 3 = 6 := by
  rw [factLoop_eq_factorial, show Nat.factorial 3 = 6 from by decide]
  norm_num

theorem Create_plus (m : MathFns) :
    Create (NewOperatorEvaluatorFactory m) ['+'] = additionEvaluator := rfl

theorem Create_minus (m : MathFns) :
    Create (NewOperatorEvaluatorFactory m) ['-'] = subtractionEvaluator := rfl

theorem Create_star (m : MathFns) :
    Create (NewOperatorEvaluatorFactory m) ['*'] = multiplicationEvaluator := rfl

theorem Create_bang (m : MathFns) :
    Create (NewOperatorEvaluatorFactory m) ['!'] = factorialEvaluator := rfl

theorem Create_caret (m : MathFns) :
    Create (NewOperatorEvaluatorFactory m) ['^'] = powerEvaluator m := rfl

theorem Create_sqrt (m : MathFns) :
    Create (NewOperatorEvaluatorFactory m) ['s','q','r','t'] = sqrtEvaluator m := rfl

theorem Create_log (m : MathFns) :
    Create (NewOperatorEvaluatorFactory m) ['l','o','g'] = logarithmEvaluator m := rfl

/-- C2: the README regression cases, for every model of the math package
agreeing with the IEEE double values sqrt(4) = 2, log(1) = 0 and 2^2 = 4:
`2+2` evaluates to 4 as documented, but `(1+2)*sqrt(4)-log(1)+3!*2^2`
evaluates to 48 — not the documented 14 (and not the mathematically
standard 30) — because `*` sits in the same precedence class as `+`/`-`. -/
theorem readme_examples_actual_values (m : MathFns)
    (hsq : m.sqrt 4 = 2) (hlog : m.log 1 = 0) (hpow : m.pow 2 2 = 4) :
    EvaluateExpression m "2+2" = GoResult.ok 4 ∧
    EvaluateExpression m "(1+2)*sqrt(4)-log(1)+3!*2^2" = GoResult.ok 48 := by
  constructor
  · have h1 : tokenize (NewOperatorEvaluatorFactory m) "2+2" =
        .ok [{ tokenType := .number, value := ['2'], start := 0, endPos := 1 },
             { tokenType := .operator, value := ['+'], start := 2, endPos := 2 },
             { tokenType := .number, value := ['2'], start := 3, endPos := 3 }] :=
      (tokenize_congr _ _ (NewFactory_keys m) _).trans (by decide)
    have h2 : toReversePolishNotation (NewOperatorEvaluatorFactory m)
        [{ tokenType := .number, value := ['2'], start := 0, endPos := 1 },
         { tokenType := .operator, value := ['+'], start := 2, endPos := 2 },
         { tokenType := .number, value := ['2'], start := 3, endPos := 3 }] =
        .ok [{ tokenType := .number, value := ['2'], start := 0, endPos := 1 },
             { tokenType := .number, value := ['2'], start := 3, endPos := 3 },
             { tokenType := .operator, value := ['+'], start := 2, endPos := 2 }] :=
      (toReversePolishNotation_congr _ _ (NewFactory_sig m) _).trans (by decide)
    simp only [EvaluateExpression, EvaluateExpressionF, h1, h2]
    norm_num +decide [evalLoop, parseNumber, atoi, digitsToNat,
      Create_plus, additionEvaluator,
      Normal, Middle, High, Infix, Function, Suffix,
      charToNat_zero, charToNat_two]
  · have h1 : tokenize (NewOperatorEvaluatorFactory m) "(1+2)*sqrt(4)-log(1)+3!*2^2" =
        .ok [{ tokenType := .leftParen, value := ['('], start := 0, endPos := 0 },
       { tokenType := .number, value := ['1'], start := 1, endPos := 2 },
       { tokenType := .operator, value := ['+'], start := 3, endPos := 3 },
       { tokenType := .number, value := ['2'], start := 4, endPos := 4 },
       { tokenType := .rightParen, value := [')'], start := 5, endPos := 4 },
       { tokenType := .operator, value := ['*'], start := 10, endPos := 10 },
       { tokenType := .operator, value := ['s','q','r','t'], start := 10, endPos := 14 },
       { tokenType := .leftParen, value := ['('], start := 11, endPos := 10 },
       { tokenType := .number, value := ['4'], start := 12, endPos := 12 },
       { tokenType := .rightParen, value := [')'], start := 13, endPos := 12 },
       { tokenType := .operator, value := ['-'], start := 17, endPos := 17 },
       { tokenType := .operator, value := ['l','o','g'], start := 17, endPos := 20 },
       { tokenType := .leftParen, value := ['('], start := 18, endPos := 17 },
       { tokenType := .number, value := ['1'], start := 19, endPos := 19 },
       { tokenType := .rightParen, value := [')'], start := 20, endPos := 19 },
       { tokenType := .operator, value := ['+'], start := 21, endPos := 21 },
       { tokenType := .number, value := ['3'], start := 22, endPos := 22 },
       { tokenType := .operator, value := ['!'], start := 24, endPos := 24 },
       { tokenType := .operator, value := ['*'], start := 24, endPos := 25 },
       { tokenType := .number, value := ['2'], start := 25, endPos := 25 },
       { tokenType := .operator, value := ['^'], start := 26, endPos := 26 },
       { tokenType := .number, value := ['2'], start := 27, endPos := 27 }] :=
      (tokenize_congr _ _ (NewFactory_keys m) _).trans (by decide)
    have h2 : toReversePolishNotation (NewOperatorEvaluatorFactory m)
        [{ tokenType := .leftParen, value := ['('], start := 0, endPos := 0 },
       { tokenType := .number, value := ['1'], start := 1, endPos := 2 },
       { tokenType := .operator, value := ['+'], start := 3, endPos := 3 },
       { tokenType := .number, value := ['2'], start := 4, endPos := 4 },
       { tokenType := .rightParen, value := [')'], start := 5, endPos := 4 },
       { tokenType := .operator, value := ['*'], start := 10, endPos := 10 },
       { tokenType := .operator, value := ['s','q','r','t'], start := 10, endPos := 14 },
       { tokenType := .leftParen, value := ['('], start := 11, endPos := 10 },
       { tokenType := .number, value := ['4'], start := 12, endPos := 12 },
       { tokenType := .rightParen, value := [')'], start := 13, endPos := 12 },
       { tokenType := .operator, value := ['-'], start := 17, endPos := 17 },
       { tokenType := .operator, value := ['l','o','g'], start := 17, endPos := 20 },
       { tokenType := .leftParen, value := ['('], start := 18, endPos := 17 },
       { tokenType := .number, value := ['1'], start := 19, endPos := 19 },
       { tokenType := .rightParen, value := [')'], start := 20, endPos := 19 },
       { tokenType := .operator, value := ['+'], start := 21, endPos := 21 },
       { tokenType := .number, value := ['3'], start := 22, endPos := 22 },
       { tokenType := .operator, value := ['!'], start := 24, endPos := 24 },
       { tokenType := .operator, value := ['*'], start := 24, endPos := 25 },
       { tokenType := .number, value := ['2'], start := 25, endPos := 25 },
       { tokenType := .operator, value := ['^'], start := 26, endPos := 26 },
       { tokenType := .number, value := ['2'], start := 27, endPos := 27 }] =
        .ok [{ tokenType := .number, value := ['1'], start := 1, endPos := 2 },
       { tokenType := .number, value := ['2'], start := 4, endPos := 4 },
       { tokenType := .operator, value := ['+'], start := 3, endPos := 3 },
       { tokenType := .number, value := ['4'], start := 12, endPos := 12 },
       { tokenType := .operator, value := ['s','q','r','t'], start := 10, endPos := 14 },
       { tokenType := .operator, value := ['*'], start := 10, endPos := 10 },
       { tokenType := .number, value := ['1'], start := 19, endPos := 19 },
       { tokenType := .operator, value := ['l','o','g'], start := 17, endPos := 20 },
       { tokenType := .operator, value := ['-'], start := 17, endPos := 17 },
       { tokenType := .number, value := ['3'], start := 22, endPos := 22 },
       { tokenType := .operator, value := ['!'], start := 24, endPos := 24 },
       { tokenType := .operator, value := ['+'], start := 21, endPos := 21 },
       { tokenType := .number, value := ['2'], start := 25, endPos := 25 },
       { tokenType := .number, value := ['2'], start := 27, endPos := 27 },
       { tokenType := .operator, value := ['^'], start := 26, endPos := 26 },
       { tokenType := .operator, value := ['*'], start := 24, endPos := 25 }] :=
      (toReversePolishNotation_congr _ _ (NewFactory_sig m) _).trans (by decide)
    have e1 : evalLoop (NewOperatorEvaluatorFactory m)
        [{ tokenType := .number, value := ['1'], start := 1, endPos := 2 },
       { tokenType := .number, value := ['2'], start := 4, endPos := 4 },
       { tokenType := .operator, value := ['+'], start := 3, endPos := 3 },
       { tokenType := .number, value := ['4'], start := 12, endPos := 12 },
       { tokenType := .operator, value := ['s','q','r','t'], start := 10, endPos := 14 },
       { tokenType := .operator, value := ['*'], start := 10, endPos := 10 }] [] = .ok [6] := by
      norm_num +decide [evalLoop, parseNumber, atoi, digitsToNat,
        Create_plus, Create_star, Create_sqrt,
        additionEvaluator, multiplicationEvaluator, sqrtEvaluator,
        Normal, Middle, High, Infix, Function, Suffix,
        charToNat_zero, charToNat_one, charToNat_two, charToNat_four, hsq]
    have e2 : evalLoop (NewOperatorEvaluatorFactory m)
        [{ tokenType := .number, value := ['1'], start := 19, endPos := 19 },
       { tokenType := .operator, value := ['l','o','g'], start := 17, endPos := 20 },
       { tokenType := .operator, value := ['-'], start := 17, endPos := 17 }] [6] = .ok [6] := by
      norm_num +decide [evalLoop, parseNumber, atoi, digitsToNat,
        Create_minus, Create_log, subtractionEvaluator, logarithmEvaluator,
        Normal, Middle, High, Infix, Function, Suffix,
        charToNat_zero, charToNat_one, hlog]
    have e3 : evalLoop (NewOperatorEvaluatorFactory m)
        [{ tokenType := .number, value := ['3'], start := 22, endPos := 22 },
       { tokenType := .operator, value := ['!'], start := 24, endPos := 24 },
       { tokenType := .operator, value := ['+'], start := 21, endPos := 21 }] [6] = .ok [12] := by
      norm_num +decide [evalLoop, parseNumber, atoi, digitsToNat,
        Create_bang, Create_plus, factorialEvaluator, additionEvaluator,
        Normal, Middle, High, Infix, Function, Suffix,
        charToNat_zero, charToNat_three, ratTrunc_three, factLoop_three,
        intToNat_three]
    have e4 : evalLoop (NewOperatorEvaluatorFactory m)
        [{ tokenType := .number, value := ['2'], start := 25, endPos := 25 },
       { tokenType := .number, value := ['2'], start := 27, endPos := 27 },
       { tokenType := .operator, value := ['^'], start := 26, endPos := 26 },
       { tokenType := .operator, value := ['*'], start := 24, endPos := 25 }] [12] = .ok [48] := by
      norm_num +decide [evalLoop, parseNumber, atoi, digitsToNat,
        Create_caret, Create_star, powerEvaluator, multiplicationEvaluator,
        Normal, Middle, High, Infix, Function, Suffix,
        charToNat_zero, charToNat_two, hpow]
    have e : evalLoop (NewOperatorEvaluatorFactory m)
        [{ tokenType := .number, value := ['1'], start := 1, endPos := 2 },
       { tokenType := .number, value := ['2'], start := 4, endPos := 4 },
       { tokenType := .operator, value := ['+'], start := 3, endPos := 3 },
       { tokenType := .number, value := ['4'], start := 12, endPos := 12 },
       { tokenType := .operator, value := ['s','q','r','t'], start := 10, endPos := 14 },
       { tokenType := .operator, value := ['*'], start := 10, endPos := 10 },
       { tokenType := .number, value := ['1'], start := 19, endPos := 19 },
       { tokenType := .operator, value := ['l','o','g'], start := 17, endPos := 20 },
       { tokenType := .operator, value := ['-'], start := 17, endPos := 17 },
       { tokenType := .number, value := ['3'], start := 22, endPos := 22 },
       { tokenType := .operator, value := ['!'], start := 24, endPos := 24 },
       { tokenType := .operator, value := ['+'], start := 21, endPos := 21 },
       { tokenType := .number, value := ['2'], start := 25, endPos := 25 },
       { tokenType := .number, value := ['2'], start := 27, endPos := 27 },
       { tokenType := .operator, value := ['^'], start := 26, endPos := 26 },
       { tokenType := .operator, value := ['*'], start := 24, endPos := 25 }] [] = .ok [48] := by
      rw [show ([{ tokenType := .number, value := ['1'], start := 1, endPos := 2 },
       { tokenType := .number, value := ['2'], start := 4, endPos := 4 },
       { tokenType := .operator, value := ['+'], start := 3, endPos := 3 },
       { tokenType := .number, value := ['4'], start := 12, endPos := 12 },
       { tokenType := .operator, value := ['s','q','r','t'], start := 10, endPos := 14 },
       { tokenType := .operator, value := ['*'], start := 10, endPos := 10 },
       { tokenType := .number, value := ['1'], start := 19, endPos := 19 },
       { tokenType := .operator, value := ['l','o','g'], start := 17, endPos := 20 },
       { tokenType := .operator, value := ['-'], start := 17, endPos := 17 },
       { tokenType := .number, value := ['3'], start := 22, endPos := 22 },
       { tokenType := .operator, value := ['!'], start := 24, endPos := 24 },
       { tokenType := .operator, value := ['+'], start := 21, endPos := 21 },
       { tokenType := .number, value := ['2'], start := 25, endPos := 25 },
       { tokenType := .number, value := ['2'], start := 27, endPos := 27 },
       { tokenType := .operator, value := ['^'], start := 26, endPos := 26 },
       { tokenType := .operator, value := ['*'], start := 24, endPos := 25 }] : List token) =
          [{ tokenType := .number, value := ['1'], start := 1, endPos := 2 },
       { tokenType := .number, value := ['2'], start := 4, endPos := 4 },
       { tokenType := .operator, value := ['+'], start := 3, endPos := 3 },
       { tokenType := .number, value := ['4'], start := 12, endPos := 12 },
       { tokenType := .operator, value := ['s','q','r','t'], start := 10, endPos := 14 },
       { tokenType := .operator, value := ['*'], start := 10, endPos := 10 }] ++
          ([{ tokenType := .number, value := ['1'], start := 19, endPos := 19 },
       { tokenType := .operator, value := ['l','o','g'], start := 17, endPos := 20 },
       { tokenType := .operator, value := ['-'], start := 17, endPos := 17 }] ++
           ([{ tokenType := .number, value := ['3'], start := 22, endPos := 22 },
       { tokenType := .operator, value := ['!'], start := 24, endPos := 24 },
       { tokenType := .operator, value := ['+'], start := 21, endPos := 21 }] ++
            [{ tokenType := .number, value := ['2'], start := 25, endPos := 25 },
       { tokenType := .number, value := ['2'], start := 27, endPos := 27 },
       { tokenType := .operator, value := ['^'], start := 26, endPos := 26 },
       { tokenType := .operator, value := ['*'], start := 24, endPos := 25 }])) from rfl,
        evalLoop_append, e1]
      simp only [evalLoop_append, e2, e3, e4]
    simp only [EvaluateExpression, EvaluateExpressionF, h1, h2, e]
    simp

/-- C2 witness: the two regression cases at the sample model `mathFns0`. -/
theorem readme_examples_actual_values_witness :
    EvaluateExpression mathFns0 "2+2" = GoResult.ok 4 ∧
    EvaluateExpression mathFns0 "(1+2)*sqrt(4)-log(1)+3!*2^2" = GoResult.ok 48 :=
  readme_examples_actual_values mathFns0 (by norm_num [mathFns0])
    (by norm_num [mathFns0]) (by norm_num [mathFns0])

/-- C3: `sqrt(4)` as a standalone expression is rejected — `sqrt` becomes an
Operator token and the validator forbids an expression starting with an
operator — while the same function application in a non-leading position,
as in `0+sqrt(4)`, consumes exactly its parenthesized operand's value and
yields 2 (for every math model with sqrt(4) = 2, the IEEE value). -/
theorem sqrt_expression_rejected (m : MathFns) (hsq : m.sqrt 4 = 2) :
    EvaluateExpression m "sqrt(4)" =
      GoResult.err "expression cannot start with an operator" ∧
    EvaluateExpression m "0+sqrt(4)" = GoResult.ok 2 := by
  constructor
  · have h1 : tokenize (NewOperatorEvaluatorFactory m) "sqrt(4)" =
        .error "expression cannot start with an operator" :=
      (tokenize_congr _ _ (NewFactory_keys m) _).trans (by decide)
    simp only [EvaluateExpression, EvaluateExpressionF, h1]
  · have h1 : tokenize (NewOperatorEvaluatorFactory m) "0+sqrt(4)" =
        .ok [{ tokenType := .number, value := ['0'], start := 0, endPos := 1 },
             { tokenType := .operator, value := ['+'], start := 6, endPos := 6 },
             { tokenType := .operator, value := ['s','q','r','t'], start := 6, endPos := 10 },
             { tokenType := .leftParen, value := ['('], start := 7, endPos := 6 },
             { tokenType := .number, value := ['4'], start := 8, endPos := 8 },
             { tokenType := .rightParen, value := [')'], start := 9, endPos := 8 }] :=
      (tokenize_congr _ _ (NewFactory_keys m) _).trans (by decide)
    have h2 : toReversePolishNotation (NewOperatorEvaluatorFactory m)
        [{ tokenType := .number, value := ['0'], start := 0, endPos := 1 },
         { tokenType := .operator, value := ['+'], start := 6, endPos := 6 },
         { tokenType := .operator, value := ['s','q','r','t'], start := 6, endPos := 10 },
         { tokenType := .leftParen, value := ['('], start := 7, endPos := 6 },
         { tokenType := .number, value := ['4'], start := 8, endPos := 8 },
         { tokenType := .rightParen, value := [')'], start := 9, endPos := 8 }] =
        .ok [{ tokenType := .number, value := ['0'], start := 0, endPos := 1 },
             { tokenType := .number, value := ['4'], start := 8, endPos := 8 },
             { tokenType := .operator, value := ['s','q','r','t'], start := 6, endPos := 10 },
             { tokenType := .operator, value := ['+'], start := 6, endPos := 6 }] :=
      (toReversePolishNotation_congr _ _ (NewFactory_sig m) _).trans (by decide)
    simp only [EvaluateExpression, EvaluateExpressionF, h1, h2]
    norm_num +decide [evalLoop, parseNumber, atoi, digitsToNat,
      Create_plus, Create_sqrt, additionEvaluator, sqrtEvaluator,
      Normal, Middle, High, Infix, Function, Suffix,
      charToNat_zero, charToNat_four, hsq]

/-- C3 witness: both behaviors at the sample model `mathFns0`. -/
theorem sqrt_expression_rejected_witness :
    EvaluateExpression mathFns0 "sqrt(4)" =
      GoResult.err "expression cannot start with an operator" ∧
    EvaluateExpression mathFns0 "0+sqrt(4)" = GoResult.ok 2 :=
  sqrt_expression_rejected mathFns0 (by norm_num [mathFns0])

/-- C7: the factorial operator itself truncates its operand toward zero to
an integer n and returns n! (so 1 whenever n ≤ 0), never reporting an
error; but the standalone expressions `5!` and `0!` do not evaluate to 120
and 1 — the validator rejects every token sequence ending with an Operator
token, which a trailing suffix `!` always is. -/
theorem factorial_semantics :
    (∀ x : ℚ, factorialEvaluator.Evaluate x 0 =
        .ok (((ratTrunc x).toNat.factorial : ℚ))) ∧
    (∀ x : ℚ, ratTrunc x ≤ 0 → factorialEvaluator.Evaluate x 0 = .ok 1) ∧
    (∀ m : MathFns, EvaluateExpression m "5!" =
        GoResult.err "expression cannot end with an operator") ∧
    (∀ m : MathFns, EvaluateExpression m "0!" =
        GoResult.err "expression cannot end with an operator") := by
  refine ⟨?_, ?_, ?_, ?_⟩
  · intro x
    simp [factorialEvaluator, factLoop_eq_factorial]
  · intro x hx
    simp [factorialEvaluator, factLoop_eq_factorial, Int.toNat_of_nonpos hx,
      Nat.factorial]
  · intro m
    have h1 : tokenize (NewOperatorEvaluatorFactory m) "5!" =
        .error "expression cannot end with an operator" :=
      (tokenize_congr _ _ (NewFactory_keys m) _).trans (by decide)
    simp only [EvaluateExpression, EvaluateExpressionF, h1]
  · intro m
    have h1 : tokenize (NewOperatorEvaluatorFactory m) "0!" =
        .error "expression cannot end with an operator" :=
      (tokenize_congr _ _ (NewFactory_keys m) _).trans (by decide)
    simp only [EvaluateExpression, EvaluateExpressionF, h1]

/-- C9: a Number token whose text has no '.' and fails integer parsing
(such as a 20-digit literal outside the 64-bit range) is silently parsed as
the value 0 with no error; end to end, `99999999999999999999+1` therefore
evaluates to 1 in every model of the math package. -/
theorem malformed_integer_yields_zero :
    (∀ input : List Char, input.contains '.' = false → atoi input = none →
        parseNumber input = Except.ok 0) ∧
    (∀ m : MathFns,
        EvaluateExpression m "99999999999999999999+1" = GoResult.ok 1) := by
  constructor
  · intro input h1 h2
    have h1m : '.' ∉ input := by simpa using h1
    simp [parseNumber, h1m, h2]
  · intro m
    have h1 : tokenize (NewOperatorEvaluatorFactory m) "99999999999999999999+1" =
        .ok [{ tokenType := .number,
               value := ['9','9','9','9','9','9','9','9','9','9','9','9','9','9','9','9','9','9','9','9'],
               start := 0, endPos := 20 },
             { tokenType := .operator, value := ['+'], start := 21, endPos := 21 },
             { tokenType := .number, value := ['1'], start := 41, endPos := 22 }] :=
      (tokenize_congr _ _ (NewFactory_keys m) _).trans (by decide)
    have h2 : toReversePolishNotation (NewOperatorEvaluatorFactory m)
        [{ tokenType := .number,
           value := ['9','9','9','9','9','9','9','9','9','9','9','9','9','9','9','9','9','9','9','9'],
           start := 0, endPos := 20 },
         { tokenType := .operator, value := ['+'], start := 21, endPos := 21 },
         { tokenType := .number, value := ['1'], start := 41, endPos := 22 }] =
        .ok [{ tokenType := .number,
               value := ['9','9','9','9','9','9','9','9','9','9','9','9','9','9','9','9','9','9','9','9'],
               start := 0, endPos := 20 },
             { tokenType := .number, value := ['1'], start := 41, endPos := 22 },
             { tokenType := .operator, value := ['+'], start := 21, endPos := 21 }] :=
      (toReversePolishNotation_congr _ _ (NewFactory_sig m) _).trans (by decide)
    have hp : parseNumber ['9','9','9','9','9','9','9','9','9','9','9','9','9','9','9','9','9','9','9','9'] = Except.ok 0 := by decide
    simp only [EvaluateExpression, EvaluateExpressionF, h1, h2]
    norm_num +decide [evalLoop, parseNumber, atoi, digitsToNat, hp,
      Create_plus, additionEvaluator,
      Normal, Middle, High, Infix, Function, Suffix,
      charToNat_zero, charToNat_one, charToNat_nine]

/-- C9 witness: the out-of-range literal parses to 0 and the end-to-end run
at the sample model returns 1. -/
theorem malformed_integer_yields_zero_witness :
    parseNumber "99999999999999999999".data = Except.ok 0 ∧
    EvaluateExpression mathFns0 "99999999999999999999+1" = GoResult.ok 1 :=
  ⟨malformed_integer_yields_zero.1 _ (by decide) (by decide),
   malformed_integer_yields_zero.2 mathFns0⟩

/-- C10: the only state an evaluation call can reach is the operator
registry, and every call returns it unchanged, so in any sequence of calls
each occurrence of the same expression string produces the identical result
(the result of evaluating it against the initial registry). -/
theorem evaluate_stateless_deterministic :
    ∀ (f : OperatorEvaluatorFactory) (calls : List String) (s : String)
      (r : GoResult),
      (runCalls f calls).2 = f ∧
      ((s, r) ∈ (runCalls f calls).1 → r = EvaluateExpressionF f s) := by
  intro f calls
  induction calls with
  | nil =>
    intro s r
    refine ⟨rfl, ?_⟩
    intro h
    simp [runCalls] at h
  | cons c rest ih =>
    intro s r
    constructor
    · simpa only [runCalls, callStep] using (ih s r).1
    · intro h
      simp only [runCalls, callStep, List.mem_cons] at h
      rcases h with h | h
      · rw [Prod.mk.injEq] at h
        rw [h.1]
        exact h.2
      · exact (ih s r).2 h

/-- The pair scan of the validator finds two adjacent Number tokens exactly
when some index holds a Number token directly followed by another. -/
theorem hasConsecutiveNumbers_iff :
    ∀ ts : List token, hasConsecutiveNumbers ts = true ↔
      ∃ i t1 t2, ts[i]? = some t1 ∧ ts[i + 1]? = some t2 ∧
        t1.tokenType = tokenType.number ∧ t2.tokenType = tokenType.number := by
  intro ts
  induction ts with
  | nil =>
    simp [hasConsecutiveNumbers]
  | cons t1 rest ih =>
    cases rest with
    | nil =>
      simp only [hasConsecutiveNumbers]
      constructor
      · intro h
        simp at h
      · rintro ⟨i, a, b, ha, hb, hn1, hn2⟩
        rcases i with _ | j
        · simp at hb
        · simp at ha
    | cons t2 rest2 =>
      by_cases h : t1.tokenType = tokenType.number ∧ t2.tokenType = tokenType.number
      · simp only [hasConsecutiveNumbers, if_pos h]
        constructor
        · intro _
          exact ⟨0, t1, t2, by simp, by simp, h.1, h.2⟩
        · intro _
          trivial
      · simp only [hasConsecutiveNumbers, if_neg h]
        rw [ih]
        constructor
        · rintro ⟨i, a, b, ha, hb, hn1, hn2⟩
          exact ⟨i + 1, a, b, by simpa using ha, by simpa using hb, hn1, hn2⟩
        · rintro ⟨i, a, b, ha, hb, hn1, hn2⟩
          rcases i with _ | j
          · simp at ha hb
            subst ha
            subst hb
            exact absurd ⟨hn1, hn2⟩ h
          · exact ⟨j, a, b, by simpa using ha, by simpa using hb, hn1, hn2⟩

theorem getLast?_cons_eq_getLastD (t0 : token) (rest : List token) :
    (t0 :: rest).getLast? = some ((t0 :: rest).getLastD t0) := by
  cases hg : (t0 :: rest).getLast? with
  | none =>
    simp [List.getLast?_eq_none_iff] at hg
  | some x =>
    rw [List.getLastD_eq_getLast?, hg]
    rfl

theorem validate_ok_iff :
    ∀ ts : List token, validate ts = .ok () ↔
      ¬(ts = [] ∨
        (∃ t0 rest, ts = t0 :: rest ∧ t0.tokenType = tokenType.operator) ∨
        (∃ tl, ts.getLast? = some tl ∧ tl.tokenType = tokenType.operator) ∨
        (∃ i t1 t2, ts[i]? = some t1 ∧ ts[i + 1]? = some t2 ∧
          t1.tokenType = tokenType.number ∧ t2.tokenType = tokenType.number)) := by
  intro ts
  cases ts with
  | nil => simp [validate]
  | cons t0 rest =>
    simp only [validate]
    split_ifs with h1 h2 h3
    · constructor
      · intro h
        simp at h
      · intro hn
        exact absurd (Or.inr (Or.inl ⟨t0, rest, rfl, h1⟩)) hn
    · constructor
      · intro h
        simp at h
      · intro hn
        exact absurd
          (Or.inr (Or.inr (Or.inl
            ⟨(t0 :: rest).getLastD t0, getLast?_cons_eq_getLastD t0 rest, h2⟩))) hn
    · constructor
      · intro h
        simp at h
      · intro hn
        exact absurd
          (Or.inr (Or.inr (Or.inr ((hasConsecutiveNumbers_iff _).mp h3)))) hn
    · constructor
      · intro _
        rintro (hA | ⟨t, r, heq, hop⟩ | ⟨tl, hg, hop⟩ | hD)
        · exact hA
        · cases heq
          exact h1 hop
        · rw [getLast?_cons_eq_getLastD t0 rest, Option.some.injEq] at hg
          exact h2 (hg ▸ hop)
        · exact h3 ((hasConsecutiveNumbers_iff _).mpr hD)
      · intro _
        rfl

theorem tokenize_one_space_two (f : OperatorEvaluatorFactory) :
    tokenize f "1 2" = .error "too much numbers without operator between them" := by
  norm_num +decide [tokenize, tokenizeLoop, visitNumber, visitOperator,
    validate, hasConsecutiveNumbers, charIsNumber, charIsParen,
    charIsLeftParen, List.enum, List.enumFrom]

/-- C8: the validator succeeds exactly when the token sequence is
non-empty, neither starts nor ends with an Operator token, and has no two
adjacent Number tokens; and the input `1 2` fails tokenization (for any
factory) with exactly the adjacent-numbers SyntaxError. -/
theorem validate_rejects_exactly :
    (∀ ts : List token, validate ts = .ok () ↔
      ¬(ts = [] ∨
        (∃ t0 rest, ts = t0 :: rest ∧ t0.tokenType = tokenType.operator) ∨
        (∃ tl, ts.getLast? = some tl ∧ tl.tokenType = tokenType.operator) ∨
        (∃ i t1 t2, ts[i]? = some t1 ∧ ts[i + 1]? = some t2 ∧
          t1.tokenType = tokenType.number ∧ t2.tokenType = tokenType.number))) ∧
    (∀ f : OperatorEvaluatorFactory,
      tokenize f "1 2" = .error "too much numbers without operator between them") :=
  ⟨validate_ok_iff, tokenize_one_space_two⟩

end GoCalc
